import Mathlib

/-!
Verification of the XMM-Newton data-processing pipeline wrapper
(`xdp/xmmDataProcessing.py`).

Each Python stage function formats argument lists and hands them to
`subprocess.run(..., check=True)`.  We embed a stage as the list of
`Invocation`s it passes to `subprocess.run`, in program order, keeping the
intermediate local-variable assignments of the source (including commands
that are constructed and then overwritten before ever being run).  A
separate execution semantics `execTrace` models `check=True`: each
invocation either exits zero and control moves to the next, or exits
non-zero, `subprocess.CalledProcessError` is raised, and the stage aborts.
-/

/-- One call to `subprocess.run`: the argv token sequence (Python passes a
list or tuple of strings, each element one argv entry), the optional `cwd`
keyword, and whether `shell=True` was given. -/
structure Invocation where
  argv : List String
  cwd : Option String
  shell : Bool
deriving DecidableEq, Repr

/-- Parent-process environment, a partial map from variable names to values. -/
abbrev Env := String → Option String

/-- Effect of one `subprocess.run` call on the parent process environment.
`subprocess.run` forks a child process (a shell when `shell=True`); by POSIX
process semantics nothing the child does — in particular a shell `export` —
can modify the parent interpreter's environment, and the Python source never
touches `os.environ`.  So the parent environment is unchanged. -/
def subprocess_run_env (env : Env) (_inv : Invocation) : Env := env

/-- Parent-process environment after a stage has run all its invocations. -/
def stage_env_after (env : Env) (cmds : List Invocation) : Env :=
  cmds.foldl subprocess_run_env env

/-- Execution of a stage's invocations under `check=True`.  `ok i` says
whether the i-th executed call exits with status zero.  The result is the
list of invocations actually started: on the first non-zero exit the
exception aborts the stage, so later invocations never run. -/
def execTrace (ok : Nat → Bool) : List Invocation → List Invocation
  | [] => []
  | c :: rest =>
    if ok 0 then c :: execTrace (fun n => ok (n + 1)) rest
    else [c]

/-- Whether every invocation of the stage exits with status zero. -/
def execOk (ok : Nat → Bool) : List Invocation → Bool
  | [] => true
  | _ :: rest => ok 0 && execOk (fun n => ok (n + 1)) rest

/-- `create_xmm_ccf(observation_id, odf_directory, ccf_directory)`:
runs `cifbuild` in `ccf_directory`, then runs
`['export', 'SAS_CCF=<ccf_directory>/ccf.cif']` with `shell=True`. -/
def create_xmm_ccf (observation_id odf_directory ccf_directory : String) :
    List Invocation :=
  let command := ["cifbuild", "obsid=" ++ observation_id,
                  "odfdir=" ++ odf_directory]
  let run1 : Invocation := ⟨command, some ccf_directory, false⟩
  let ccf_file_path := ccf_directory ++ "/ccf.cif"
  let command := ["export", "SAS_CCF=" ++ ccf_file_path]
  [run1, ⟨command, none, true⟩]

/-- `run_odfingest(odf_directory, cif_directory)`: runs `odfingest` with the
directory and a `-p` option, then the `export SAS_ODF` shell command. -/
def run_odfingest (odf_directory cif_directory : String) : List Invocation :=
  let command := ["odfingest", odf_directory]
  let command := command ++ ["-p" ++ cif_directory]
  let run1 : Invocation := ⟨command, none, false⟩
  let command := ["export", "SAS_ODF=" ++ odf_directory]
  [run1, ⟨command, none, true⟩]

/-- `run_emchain(odf_directory, em_directory)`: runs `emchain`, then the
`export SAS_ODF=<em_directory>` shell command. -/
def run_emchain (odf_directory em_directory : String) : List Invocation :=
  let command := ["emchain", "odfdir=" ++ odf_directory,
                  "outdir=" ++ em_directory]
  let run1 : Invocation := ⟨command, none, false⟩
  let command := ["export", "SAS_ODF=" ++ em_directory]
  [run1, ⟨command, none, true⟩]

/-- `run_epchain(odf_directory, ep_directory, oot=True)`: runs `epchain`
with fixed options, appending `ootcorr=yes` when `oot` is true, then the
`export SAS_ODF=<ep_directory>` shell command. -/
def run_epchain (odf_directory ep_directory : String) (oot : Bool := true) :
    List Invocation :=
  let command := ["epchain", "pnimage=yes", "pnspec=yes", "pntrailla=yes",
                  "pntraillae=yes", "odfdir=" ++ odf_directory,
                  "outdir=" ++ ep_directory]
  let command := if oot then command ++ ["ootcorr=yes"] else command
  let run1 : Invocation := ⟨command, none, false⟩
  let command := ["export", "SAS_ODF=" ++ ep_directory]
  [run1, ⟨command, none, true⟩]

/-- `create_good_time_intervals(observation_id, odf_directory,
gtis_directory, event_file, expression, gtiset_name='gti')`.  Mirrors the
source line by line: the first (misspelled) `eveselect` rate-binning command
is run; a `tabgtigen` command is then assigned to the local `command` but the
very next statement overwrites `command` with an `evselect` filtering
command before any `subprocess.run`, so only the latter is run. -/
def create_good_time_intervals (observation_id odf_directory gtis_directory
    event_file expression : String) (gtiset_name : String := "gti") :
    List Invocation :=
  let command := ["eveselect", "table=" ++ event_file, "withrateset=yes",
                  "rateset=" ++ gtis_directory ++ "/rate",
                  "maketimecolumn=yes", "makeratecolumn=yes", "timebinsize=50"]
  let run1 : Invocation := ⟨command, some odf_directory, false⟩
  let command := ["tabgtigen", "table=" ++ gtis_directory ++ "/rate",
                  "gtiset=" ++ gtis_directory ++ "/" ++ gtiset_name,
                  "sigma=3"]
  let command := ["evselect", "table=" ++ event_file, "withfilteredset=yes",
                  "expression=" ++ expression,
                  "filteredset=" ++ gtis_directory ++ "/" ++ gtiset_name]
  [run1, ⟨command, some odf_directory, false⟩]

/-- `create_mos_images(observation_id, odf_directory, images_directory,
event_file, expression, image_name='image', imageset_name='imageset')`:
two `evselect` image-generation invocations, run in `odf_directory`. -/
def create_mos_images (observation_id odf_directory images_directory
    event_file expression : String) (image_name : String := "image")
    (imageset_name : String := "imageset") : List Invocation :=
  let command := ["evselect", "table=" ++ event_file, "withimageset=yes",
                  "imageset=" ++ images_directory ++ "/" ++ imageset_name,
                  "xcolumn=X", "ycolumn=Y", "imagebinning=imageSize",
                  "ximagebinsize=80", "yimagebinsize=80",
                  "expression=" ++ expression]
  let run1 : Invocation := ⟨command, some odf_directory, false⟩
  let command := ["evselect", "table=" ++ event_file, "withimageset=yes",
                  "imageset=" ++ images_directory ++ "/" ++ image_name,
                  "xcolumn=X", "ycolumn=Y", "imagebinning=imageSize",
                  "ximagebinsize=80", "yimagebinsize=80",
                  "expression=" ++ expression]
  [run1, ⟨command, some odf_directory, false⟩]

/-- `create_pn_images(observation_id, odf_directory, images_directory,
event_file, expression, image_name='image', imageset_name='imageset',
oot_image_name='oot_image', oot_imageset_name='oot_imageset',
oot_flag=False)`.  Two `evselect` image commands always run; when
`oot_flag` is true, an OOT `evselect` command is assigned to the local
`command` but — like the `tabgtigen` command in
`create_good_time_intervals` — never passed to `subprocess.run`: the branch
only runs the two `farith` commands.  Each `farith` command in the source is
a Python tuple of three strings whose last element space-joins three
operands into one token; the tuple elements are the argv entries
`subprocess.run` receives. -/
def create_pn_images (observation_id odf_directory images_directory
    event_file expression : String) (image_name : String := "image")
    (imageset_name : String := "imageset")
    (oot_image_name : String := "oot_image")
    (oot_imageset_name : String := "oot_imageset")
    (oot_flag : Bool := false) : List Invocation :=
  let command := ["evselect", "table=" ++ event_file, "withimageset=yes",
                  "imageset=" ++ images_directory ++ "/" ++ imageset_name,
                  "xcolumn=X", "ycolumn=Y", "imagebinning=imageSize",
                  "ximagebinsize=40", "yimagebinsize=40",
                  "expression=" ++ expression]
  let run1 : Invocation := ⟨command, some odf_directory, false⟩
  let command := ["evselect", "table=" ++ event_file, "withimageset=yes",
                  "imageset=" ++ images_directory ++ "/" ++ image_name,
                  "xcolumn=X", "ycolumn=Y", "imagebinning=imageSize",
                  "ximagebinsize=40", "yimagebinsize=40",
                  "expression=" ++ expression]
  let run2 : Invocation := ⟨command, some odf_directory, false⟩
  if oot_flag then
    let command := ["evselect", "table=" ++ event_file, "withimageset=yes",
                    "imageset=" ++ images_directory ++ "/" ++ oot_imageset_name,
                    "xcolumn=X", "ycolumn=Y", "imagebinning=imageSize",
                    "ximagebinsize=40", "yimagebinsize=40",
                    "expression=FLAG==0"]
    let farith_command := ["farith",
                           images_directory ++ "/" ++ oot_imageset_name,
                           "0.063 PN_OoT_image_rescaled.fits MUL"]
    let run3 : Invocation := ⟨farith_command, some odf_directory, false⟩
    let farith_command := ["farith",
                           images_directory ++ "/" ++ oot_imageset_name,
                           "PN_OoT_image_rescaled image_ot_sub.fits SUB"]
    let run4 : Invocation := ⟨farith_command, some odf_directory, false⟩
    [run1, run2, run3, run4]
  else
    [run1, run2]

/-- The documented `farith` command-line convention: the program name plus
four separate operand tokens `infil1 infil2 outfil ops`, five argv entries
in all. -/
def farith_well_formed (c : Invocation) : Bool :=
  c.argv.length == 5

theorem execTrace_of_execOk (cmds : List Invocation) :
    ∀ ok : Nat → Bool, execOk ok cmds = true → execTrace ok cmds = cmds := by
  induction cmds with
  | nil => intro ok _; rfl
  | cons c rest ih =>
    intro ok h
    simp only [execOk, Bool.and_eq_true] at h
    simp [execTrace, h.1, ih _ h.2]

theorem execOk_const_true (cmds : List Invocation) :
    execOk (fun _ => true) cmds = true := by
  induction cmds with
  | nil => rfl
  | cons c rest ih => simpa [execOk] using ih

theorem execTrace_take (cmds : List Invocation) :
    ∀ (ok : Nat → Bool) (i : Nat), i < cmds.length → ok i = false →
      (∀ j, j < i → ok j = true) → execTrace ok cmds = cmds.take (i + 1) := by
  induction cmds with
  | nil => intro ok i hi _ _; exact absurd hi (Nat.not_lt_zero i)
  | cons c rest ih =>
    intro ok i hi hfail hpre
    cases i with
    | zero => simp [execTrace, hfail]
    | succ n =>
      have h0 : ok 0 = true := hpre 0 (Nat.succ_pos n)
      have hrec : execTrace (fun m => ok (m + 1)) rest = rest.take (n + 1) :=
        ih (fun m => ok (m + 1)) n (Nat.lt_of_succ_lt_succ (by simpa using hi))
          hfail (fun j hj => hpre (j + 1) (Nat.succ_lt_succ hj))
      simp [execTrace, h0, hrec]

theorem stage_env_after_id : ∀ (cmds : List Invocation) (env : Env),
    stage_env_after env cmds = env := by
  intro cmds
  induction cmds with
  | nil => intro env; rfl
  | cons c rest ih => intro env; exact ih env

/-- Claim C1: every `subprocess.run` in a stage uses `check=True`, so an
invocation exiting non-zero raises and aborts the stage at once: the
executed trace is exactly the declared commands up to and including the
failing one.  In particular when `cifbuild` (invocation 0 of
`create_xmm_ccf`) fails, the trace is just the `cifbuild` invocation and the
`SAS_CCF` export command never runs. -/
theorem c1_fail_fast_aborts_stage (cmds : List Invocation) (ok : Nat → Bool)
    (i : Nat) (hi : i < cmds.length) (hfail : ok i = false)
    (hpre : ∀ j, j < i → ok j = true) :
    execTrace ok cmds = cmds.take (i + 1) ∧
    (∀ obs odf ccf ok2, ok2 0 = false →
      execTrace ok2 (create_xmm_ccf obs odf ccf) =
        [⟨["cifbuild", "obsid=" ++ obs, "odfdir=" ++ odf], some ccf, false⟩]) := by
  refine ⟨execTrace_take cmds ok i hi hfail hpre, ?_⟩
  intro obs odf ccf ok2 h2
  simp [create_xmm_ccf, execTrace, h2]

/-- Witness for C1 at concrete inputs: `cifbuild` fails immediately, the
stage trace stops after the first declared command. -/
theorem c1_fail_fast_aborts_stage_witness :
    execTrace (fun _ => false) (create_xmm_ccf "0087940101" "/odf" "/ccf") =
      (create_xmm_ccf "0087940101" "/odf" "/ccf").take 1 :=
  (c1_fail_fast_aborts_stage (create_xmm_ccf "0087940101" "/odf" "/ccf")
    (fun _ => false) 0 (by decide) rfl
    (fun j hj => absurd hj (Nat.not_lt_zero j))).1

/-- Claim C2 (code bug): the claimed environment hand-off never happens.
The stages only call `subprocess.run`, whose child process cannot modify the
parent interpreter's environment, so the parent environment after any stage
equals the environment before it; concretely, after
`create_xmm_ccf("0087940101", "/odf", "/ccf")` on an empty environment,
`SAS_CCF` is still unset rather than `"/ccf/ccf.cif"`, and likewise
`SAS_ODF` after `run_odfingest`, `run_emchain` and `run_epchain` — even
though each stage does construct the `export` command the claim describes. -/
theorem c2_env_handoff_never_happens :
    (∀ (env : Env) (cmds : List Invocation), stage_env_after env cmds = env) ∧
    stage_env_after (fun _ => none)
      (create_xmm_ccf "0087940101" "/odf" "/ccf") "SAS_CCF" = none ∧
    (create_xmm_ccf "0087940101" "/odf" "/ccf").map Invocation.argv =
      [["cifbuild", "obsid=0087940101", "odfdir=/odf"],
       ["export", "SAS_CCF=/ccf/ccf.cif"]] ∧
    stage_env_after (fun _ => none) (run_odfingest "/odf" "/cif") "SAS_ODF"
      = none ∧
    stage_env_after (fun _ => none) (run_emchain "/odf" "/em") "SAS_ODF"
      = none ∧
    stage_env_after (fun _ => none) (run_epchain "/odf" "/ep" true) "SAS_ODF"
      = none := by
  refine ⟨fun env cmds => stage_env_after_id cmds env, ?_, ?_, ?_, ?_, ?_⟩
  · rfl
  · rfl
  · rfl
  · rfl
  · rfl

/-- Claim C3 (code bug): `create_good_time_intervals` never executes
`tabgtigen`.  Whatever the exit statuses, no invocation in the executed
trace has program name `tabgtigen`; the two commands actually passed to
`subprocess.run` are the (misspelled) `eveselect` rate-binning command and
an `evselect` event-filtering command — the `tabgtigen` sigma-clipping
command is assigned to the local variable and overwritten before running. -/
theorem c3_tabgtigen_never_executed (obs odf gd ev expr gn : String)
    (ok : Nat → Bool) :
    ((execTrace ok (create_good_time_intervals obs odf gd ev expr gn)).all
      (fun c => c.argv.head? != some "tabgtigen")) = true ∧
    (create_good_time_intervals obs odf gd ev expr gn).map
        (fun c => c.argv.head?) =
      [some "eveselect", some "evselect"] := by
  constructor
  · cases h0 : ok 0 <;>
      simp [create_good_time_intervals, execTrace, h0]
  · rfl

/-- Claim C4: when every invocation of a stage exits zero, the executed
trace equals the declared command list — each command runs exactly once, in
declared order, blocking until it exits before the next starts (the trace
is built strictly sequentially); instantiated for `create_pn_images`. -/
theorem c4_all_ok_declared_order (cmds : List Invocation) (ok : Nat → Bool)
    (h : execOk ok cmds = true) :
    execTrace ok cmds = cmds ∧
    (∀ obs odf img ev expr n1 n2 n3 n4 oot,
      execTrace (fun _ => true)
          (create_pn_images obs odf img ev expr n1 n2 n3 n4 oot) =
        create_pn_images obs odf img ev expr n1 n2 n3 n4 oot) := by
  refine ⟨execTrace_of_execOk cmds ok h, ?_⟩
  intro obs odf img ev expr n1 n2 n3 n4 oot
  exact execTrace_of_execOk _ _ (execOk_const_true _)

/-- Witness for C4 at concrete inputs: with every exit status zero,
`run_odfingest`'s trace is its declared two commands. -/
theorem c4_all_ok_declared_order_witness :
    execTrace (fun _ => true) (run_odfingest "/odf" "/cif") =
      run_odfingest "/odf" "/cif" :=
  (c4_all_ok_declared_order (run_odfingest "/odf" "/cif") (fun _ => true)
    (by decide)).1

/-- Claim C5 (code bug): argument-list construction is a pure function of
the stage arguments (determinism is definitional in this embedding), but the
`farith` invocations of `create_pn_images` are not well-formed token lists
per farith's documented `infil1 infil2 outfil ops` convention: each has only
3 argv entries, the last space-joining three operands into a single token,
instead of the 5 separate tokens the tool expects. -/
theorem c5_farith_argv_malformed (obs odf img ev expr n1 n2 n3 n4 : String)
    (oot : Bool) :
    ((create_pn_images obs odf img ev expr n1 n2 n3 n4 oot).filter
        (fun c => c.argv.head? == some "farith")).all
      (fun c => !farith_well_formed c) = true ∧
    ((create_pn_images obs odf img ev expr n1 n2 n3 n4 true).filter
        (fun c => c.argv.head? == some "farith")).map Invocation.argv =
      [["farith", img ++ "/" ++ n4, "0.063 PN_OoT_image_rescaled.fits MUL"],
       ["farith", img ++ "/" ++ n4,
        "PN_OoT_image_rescaled image_ot_sub.fits SUB"]] := by
  constructor
  · cases oot <;> simp [create_pn_images, farith_well_formed]
  · simp [create_pn_images]

/-- Claim C6: `run_epchain` appends `ootcorr=yes` exactly when `oot` is
true, all other epchain arguments are present in either case, and `oot`
defaults to true. -/
theorem c6_ootcorr_iff_oot (odf ep : String) (oot : Bool) :
    (run_epchain odf ep oot).map Invocation.argv =
      [(["epchain", "pnimage=yes", "pnspec=yes", "pntrailla=yes",
         "pntraillae=yes", "odfdir=" ++ odf, "outdir=" ++ ep] ++
        if oot then ["ootcorr=yes"] else []),
       ["export", "SAS_ODF=" ++ ep]] ∧
    run_epchain odf ep = run_epchain odf ep true := by
  cases oot <;> exact ⟨rfl, rfl⟩

/-- Claim C7 (code bug): with `oot_flag` false, `create_pn_images` passes
to `subprocess.run` exactly the two plain `evselect` image-generation
commands — that half of the claim holds.  With `oot_flag` true, however,
the OOT-image `evselect` command is only assigned to the local `command`
and never passed to `subprocess.run`: the branch adds exactly the two
`farith` commands, so the stage's commands are evselect, evselect, farith,
farith — not the evselect-then-two-farith OOT triple the claim asserts. -/
theorem c7_oot_evselect_never_executed (obs odf img ev expr n1 n2 n3 n4
    : String) :
    create_pn_images obs odf img ev expr n1 n2 n3 n4 false =
      [⟨["evselect", "table=" ++ ev, "withimageset=yes",
         "imageset=" ++ img ++ "/" ++ n2, "xcolumn=X", "ycolumn=Y",
         "imagebinning=imageSize", "ximagebinsize=40", "yimagebinsize=40",
         "expression=" ++ expr], some odf, false⟩,
       ⟨["evselect", "table=" ++ ev, "withimageset=yes",
         "imageset=" ++ img ++ "/" ++ n1, "xcolumn=X", "ycolumn=Y",
         "imagebinning=imageSize", "ximagebinsize=40", "yimagebinsize=40",
         "expression=" ++ expr], some odf, false⟩] ∧
    create_pn_images obs odf img ev expr n1 n2 n3 n4 true =
      create_pn_images obs odf img ev expr n1 n2 n3 n4 false ++
        [⟨["farith", img ++ "/" ++ n4,
           "0.063 PN_OoT_image_rescaled.fits MUL"], some odf, false⟩,
         ⟨["farith", img ++ "/" ++ n4,
           "PN_OoT_image_rescaled image_ot_sub.fits SUB"], some odf, false⟩] ∧
    (create_pn_images obs odf img ev expr n1 n2 n3 n4 true).map
        (fun c => c.argv.head?) =
      [some "evselect", some "evselect", some "farith", some "farith"] :=
  ⟨rfl, rfl, rfl⟩

/-- Claim C8: the commands constructed by `create_good_time_intervals`,
`create_mos_images` and `create_pn_images` do not depend on
`observation_id`: changing only that argument yields identical invocation
lists. -/
theorem c8_obsid_noninterference (obsA obsB odf gd img ev expr gn n1 n2 n3 n4
    : String) (oot : Bool) :
    create_good_time_intervals obsA odf gd ev expr gn =
      create_good_time_intervals obsB odf gd ev expr gn ∧
    create_mos_images obsA odf img ev expr n1 n2 =
      create_mos_images obsB odf img ev expr n1 n2 ∧
    create_pn_images obsA odf img ev expr n1 n2 n3 n4 oot =
      create_pn_images obsB odf img ev expr n1 n2 n3 n4 oot :=
  ⟨rfl, rfl, rfl⟩

/-- Claim C9: the commands constructed by `create_pn_images` do not depend
on `oot_image_name` (only `oot_imageset_name` appears in the OOT branch):
changing only that argument yields identical invocation lists. -/
theorem c9_oot_image_name_noninterference (obs odf img ev expr n1 n2 a3 b3 n4
    : String) (oot : Bool) :
    create_pn_images obs odf img ev expr n1 n2 a3 n4 oot =
      create_pn_images obs odf img ev expr n1 n2 b3 n4 oot :=
  rfl

/-- Claim C10: the two `evselect` invocations of `create_mos_images` agree
in working directory, shell mode and every argv token except index 3, the
output imageset path: the first uses `imageset_name`, the second
`image_name`. -/
theorem c10_mos_evselect_pair (obs odf img ev expr n1 n2 : String) :
    ∃ c1 c2, create_mos_images obs odf img ev expr n1 n2 = [c1, c2] ∧
      c1.argv.length = 10 ∧
      c1.argv[3]? = some ("imageset=" ++ img ++ "/" ++ n2) ∧
      c2.argv[3]? = some ("imageset=" ++ img ++ "/" ++ n1) ∧
      c2.argv = c1.argv.set 3 ("imageset=" ++ img ++ "/" ++ n1) ∧
      c1.cwd = c2.cwd ∧ c1.shell = c2.shell :=
  ⟨⟨["evselect", "table=" ++ ev, "withimageset=yes",
     "imageset=" ++ img ++ "/" ++ n2, "xcolumn=X", "ycolumn=Y",
     "imagebinning=imageSize", "ximagebinsize=80", "yimagebinsize=80",
     "expression=" ++ expr], some odf, false⟩,
   ⟨["evselect", "table=" ++ ev, "withimageset=yes",
     "imageset=" ++ img ++ "/" ++ n1, "xcolumn=X", "ycolumn=Y",
     "imagebinning=imageSize", "ximagebinsize=80", "yimagebinsize=80",
     "expression=" ++ expr], some odf, false⟩,
   rfl, rfl, rfl, rfl, rfl, rfl, rfl⟩
